import Mathlib

/-!
Shallow embedding of the C wrapper code generator of `qt_wrapper_generator`
(`src/qt_wrapper_generator/src/c_generator.rs`).

The embedding translates the generator's pure text-producing functions into
Lean functions.  Rust `panic!` / `unwrap` / `unimplemented!` calls are modelled
as `Except.error` values carrying the panic message; the diverging error
constructors follow the error taxonomy of the design document
(`ConventionViolation`, `MappingError`, `MetadataError`).

Data declarations that live in sibling modules of the repository
(`enums.rs`, `c_type.rs`, `cpp_type.rs`, `cpp_and_c_method.rs`) are
reconstructed from their use sites in `c_generator.rs`; the few helper
functions whose definitions are outside the sampled sources
(`CType::to_c_code`, `CppType::to_cpp_code`, `CTypeExtended::void`,
`arguments_to_c_code`, the type translator `to_c_type`) are modelled from the
specification and marked as such in their doc comments.
-/

/-- `IndirectionChange` from `enums.rs`: how indirection changes between the
C++ type and the corresponding C type at one argument or return position. -/
inductive IndirectionChange where
| NoChange : IndirectionChange
| ValueToPointer : IndirectionChange
| ReferenceToPointer : IndirectionChange
deriving DecidableEq

/-- `AllocationPlace` from `enums.rs`: whether wrapper-constructed objects
live in caller-supplied storage (`Stack`) or are heap-allocated (`Heap`). -/
inductive AllocationPlace where
| Stack : AllocationPlace
| Heap : AllocationPlace
deriving DecidableEq

/-- `CFunctionArgumentCppEquivalent` from `enums.rs`: the role of one C-side
argument.  The `Argument` payload is the C++ argument index as an `i8`
(the generator compares against `i as i8`). -/
inductive CFunctionArgumentCppEquivalent where
| Argument : Int → CFunctionArgumentCppEquivalent
| This : CFunctionArgumentCppEquivalent
| ReturnValue : CFunctionArgumentCppEquivalent
deriving DecidableEq

/-- `CppMethodScope` from `enums.rs`: a method is either free (`Global`) or a
member of a named class. -/
inductive CppMethodScope where
| Global : CppMethodScope
| Class : String → CppMethodScope
deriving DecidableEq

/-- `CppTypeIndirection` from `cpp_type.rs` (only the variants used by the
generator's call sites). -/
inductive CppTypeIndirection where
| None : CppTypeIndirection
| Ptr : CppTypeIndirection
| Ref : CppTypeIndirection
deriving DecidableEq

/-- `CppTypeBase` from `cpp_type.rs` as used by `c_generator.rs`: every match
there handles `Unspecified { name, .. }` and panics on anything else, so the
remaining variants are collapsed into `Other`.  (The unused
`template_arguments` payload is omitted.) -/
inductive CppTypeBase where
| Unspecified : String → CppTypeBase
| Other : CppTypeBase
deriving DecidableEq

/-- `CppType` from `cpp_type.rs`: constness, indirection and base. -/
structure CppType where
  is_const : Bool
  indirection : CppTypeIndirection
  base : CppTypeBase
deriving DecidableEq

/-- The C-side spelling of a type.  Modelled from the spec: a base identifier
plus pointer indirection (the generator only ever needs depth 0 or 1). -/
structure CType where
  base : String
  is_pointer : Bool
deriving DecidableEq

/-- Modelled from the spec: `CType::to_c_code` (its definition is outside the
sampled sources) spells the base identifier followed by `*` when the type is
a pointer. -/
def CType.to_c_code (t : CType) : String :=
  if t.is_pointer then t.base ++ "*" else t.base

/-- Modelled from the spec: `CppType::to_cpp_code` (outside the sampled
sources) spells the C++ type; it succeeds exactly on named (`Unspecified`)
base types. -/
def CppType.to_cpp_code (t : CppType) : Option String :=
  match t.base with
  | CppTypeBase.Unspecified name =>
    some ((if t.is_const then "const " else "") ++ name ++
      (match t.indirection with
       | CppTypeIndirection.None => ""
       | CppTypeIndirection.Ptr => "*"
       | CppTypeIndirection.Ref => "&"))
  | CppTypeBase.Other => none

/-- The conversion descriptor attached to each translated type
(`c_type.rs`): indirection change, renaming flag and flags-to-integer flag. -/
structure TypeConversion where
  indirection_change : IndirectionChange
  renamed : Bool
  qflags_to_uint : Bool
deriving DecidableEq

/-- `CTypeExtended` from `c_type.rs`: the C type, the C++ type it came from,
and the conversion between them. -/
structure CTypeExtended where
  c_type : CType
  cpp_type : CppType
  conversion : TypeConversion
deriving DecidableEq

/-- Modelled from the spec: `CTypeExtended::void()` (outside the sampled
sources) is the void C type with no conversion. -/
def CTypeExtended.void : CTypeExtended :=
  { c_type := { base := "void", is_pointer := false },
    cpp_type := { is_const := false, indirection := CppTypeIndirection.None,
                  base := CppTypeBase.Unspecified "void" },
    conversion := { indirection_change := IndirectionChange.NoChange,
                    renamed := false, qflags_to_uint := false } }

/-- One enumerator of an `Enum` kind type (`cpp_data.rs`): the generator only
reads its `name`; the integer value is looked up in the extracted info. -/
structure EnumValue where
  name : String
deriving DecidableEq

/-- `CppTypeOrigin` from `enums.rs` as matched in `c_generator.rs`. -/
inductive CppTypeOrigin where
| CBuiltIn : CppTypeOrigin
| Unsupported : String → CppTypeOrigin
| Unknown : CppTypeOrigin
| CLang : CppTypeOrigin
| Qt : String → CppTypeOrigin
deriving DecidableEq

/-- `CppTypeKind` from `enums.rs` as matched in `c_generator.rs`.  `Class`
carries the optional byte size (`CLangCppTypeKind::Class { size, .. }`). -/
inductive CppTypeKind where
| Unknown : CppTypeKind
| CPrimitive : CppTypeKind
| Enum : List EnumValue → CppTypeKind
| Flags : CppTypeKind
| TypeDef : CppType → CppTypeKind
| Class : Option Nat → CppTypeKind
deriving DecidableEq

/-- The per-type metadata record consulted by the generator: origin and kind
(`CLangCppTypeData`). -/
structure CppTypeData where
  origin : CppTypeOrigin
  kind : CppTypeKind
deriving DecidableEq

/-- The generator state.  `types` models the type map
`self.cpp_data.types` (qualified C++ name to type data); `enum_values` models
the extracted-info lookup `self.cpp_extracted_info.enum_values` (type name and
enumerator name to integer value); `to_c_type` models the external type
translator `CppType::to_c_type` (modelled from the spec: its definition is
outside the sampled sources), used only to resolve `TypeDef` meanings. -/
structure CGenerator where
  types : String → Option CppTypeData
  enum_values : String → String → Option Int
  to_c_type : CppType → Option CTypeExtended

/-- The fatal-error taxonomy.  Rust panics are mapped to these constructors,
each carrying the panic message. -/
inductive GenError where
| ConventionViolation : String → GenError
| MappingError : String → GenError
| MetadataError : String → GenError
| NotSupported : String → GenError
| NotImplemented : String → GenError
| OtherPanic : String → GenError
deriving DecidableEq

/-- `only_c_code` (`c_generator.rs` lines 22-24): wrap text so that it is
compiled only as C. -/
def only_c_code (code : String) : String :=
  "#ifndef __cplusplus // if C\n" ++ code ++ "#endif // if C\n\n"

/-- `only_cpp_code` (`c_generator.rs` lines 25-27): wrap text so that it is
compiled only as C++. -/
def only_cpp_code (code : String) : String :=
  "#ifdef __cplusplus // if C++\n" ++ code ++ "#endif // if C++\n\n"

/-- Whether a character list contains two consecutive colons. -/
def contains_double_colon_chars : List Char → Bool
| ':' :: ':' :: _ => true
| _ :: rest => contains_double_colon_chars rest
| [] => false

/-- `c_struct_name.find("::").is_some()`: whether the string contains the
substring `::`. -/
def contains_double_colon (s : String) : Bool :=
  contains_double_colon_chars s.data

/-- `CGenerator::struct_declaration` (`c_generator.rs` lines 267-293): the
C declaration of a class type.  A sized opaque struct is emitted only when a
full declaration is requested and the byte size is known; otherwise only the
struct tag.  Both are followed by the typedef.  The Rust call site passes the
type's metadata record for the `cpp_type_info` parameter. -/
def struct_declaration (c_struct_name : String) (cpp_type_info : CppTypeData)
    (full_declaration : Bool) : Except GenError String :=
  if contains_double_colon c_struct_name then
    Except.error (GenError.OtherPanic "struct_declaration called for invalid struct name")
  else
    match cpp_type_info.kind with
    | CppTypeKind.Class size =>
      let result :=
        match full_declaration, size with
        | true, some n =>
          "struct QTCW_" ++ c_struct_name ++ " \x7b char space[" ++ toString n ++ "]; \x7d;\n"
        | true, none => "struct QTCW_" ++ c_struct_name ++ ";\n"
        | false, _ => "struct QTCW_" ++ c_struct_name ++ ";\n"
      Except.ok (result ++ "typedef struct QTCW_" ++ c_struct_name ++ " " ++
        c_struct_name ++ ";\n\n")
    | _ => Except.error (GenError.OtherPanic "struct_declaration(): cpp type is not a class")

/-- The enumerator lines of a full enum declaration (`c_generator.rs` lines
337-348): each enumerator is qualified as `<Type>_<Name>` and its integer
value is looked up in the extracted info, a missing value being a panic. -/
def enum_values_entries (gen : CGenerator) (cpp_type_base c_base : String) :
    List EnumValue → Except GenError (List String)
| [] => Except.ok []
| x :: rest =>
  match gen.enum_values cpp_type_base x.name with
  | none => Except.error (GenError.OtherPanic "enum value lookup failed")
  | some v =>
    match enum_values_entries gen cpp_type_base c_base rest with
    | Except.error e => Except.error e
    | Except.ok tail =>
      Except.ok (("  " ++ c_base ++ "_" ++ x.name ++ " = " ++ toString v) :: tail)

/-- `CGenerator::generate_type_declaration` (`c_generator.rs` lines 295-381).
The `&mut Vec<String>` visited list is threaded explicitly: the result pairs
the emitted text with the updated list.  The `fuel` parameter bounds the
`TypeDef` recursion (the Rust code recurses without a bound and would diverge
on cyclic aliases); running out of fuel is an error and never happens in the
theorems below, which concern non-recursive kinds. -/
def generate_type_declaration (gen : CGenerator) :
    Nat → CTypeExtended → String → List String →
    Except GenError (String × List String)
| 0, _, _, _ => Except.error (GenError.OtherPanic "typedef recursion limit exceeded")
| Nat.succ fuel, c_type_extended, current_include_file, already_declared =>
  let c_type := c_type_extended.c_type
  if already_declared.contains c_type.base then
    Except.ok ("", already_declared)
  else if c_type.base == "wchar_t" then
    Except.ok (only_c_code "#include <wchar.h>\n", already_declared)
  else
    match c_type_extended.cpp_type.base with
    | CppTypeBase.Other =>
      Except.error (GenError.NotSupported "new cpp types are not supported here yet")
    | CppTypeBase.Unspecified cpp_type_base =>
      match gen.types cpp_type_base with
      | none => Except.error (GenError.OtherPanic "type info lookup failed")
      | some type_info =>
        match
          (match type_info.origin with
           | CppTypeOrigin.CBuiltIn => Except.ok ("", already_declared)
           | CppTypeOrigin.Unsupported _ =>
             Except.error (GenError.MetadataError "this type should have been filtered previously")
           | CppTypeOrigin.Unknown =>
             Except.error (GenError.MetadataError "this type should have been filtered previously")
           | CppTypeOrigin.CLang =>
             Except.error (GenError.NotImplemented "not implemented")
           | CppTypeOrigin.Qt include_file =>
             let needs_full_declaration := current_include_file == include_file
             match
               (match type_info.kind with
                | CppTypeKind.Unknown =>
                  Except.error (GenError.MetadataError "this type should have been filtered previously")
                | CppTypeKind.CPrimitive => Except.ok ("", already_declared)
                | CppTypeKind.Enum values =>
                  if needs_full_declaration then
                    match enum_values_entries gen cpp_type_base c_type.base values with
                    | Except.error e => Except.error e
                    | Except.ok entries =>
                      Except.ok (only_c_code ("typedef enum QTCW_" ++ c_type.base ++
                        " \x7b\n" ++ String.intercalate ", \n" entries ++ "\n\x7d " ++
                        c_type.base ++ ";\n"), already_declared)
                  else
                    Except.ok (only_c_code ("typedef enum QTCW_" ++ c_type.base ++ " " ++
                      c_type.base ++ ";\n"), already_declared)
                | CppTypeKind.Flags =>
                  Except.ok ("typedef unsigned int " ++ c_type.base ++ ";\n",
                    already_declared)
                | CppTypeKind.TypeDef meaning =>
                  match gen.to_c_type meaning with
                  | none => Except.error (GenError.OtherPanic "to_c_type failed")
                  | some c_meaning =>
                    match generate_type_declaration gen fuel c_meaning
                        current_include_file already_declared with
                    | Except.error e => Except.error e
                    | Except.ok (inner, vis) =>
                      Except.ok (inner ++ only_c_code ("typedef " ++
                        c_meaning.c_type.to_c_code ++ " " ++ c_type.base ++ ";\n"), vis)
                | CppTypeKind.Class _ =>
                  match struct_declaration c_type.base type_info needs_full_declaration with
                  | Except.error e => Except.error e
                  | Except.ok s => Except.ok (only_c_code s, already_declared))
             with
             | Except.error e => Except.error e
             | Except.ok (declaration, vis) =>
               Except.ok (declaration, vis ++ [c_type.base]))
        with
        | Except.error e => Except.error e
        | Except.ok (result, vis) =>
          Except.ok ((if c_type_extended.conversion.renamed then
              result ++ only_cpp_code ("typedef " ++ cpp_type_base ++ " " ++
                c_type.base ++ ";\n")
            else result), vis)

/-- One C-side function argument (`c_function_signature.rs`): name, translated
type and role. -/
structure CFunctionArgument where
  name : String
  argument_type : CTypeExtended
  cpp_equivalent : CFunctionArgumentCppEquivalent
deriving DecidableEq

/-- The C signature of a generated wrapper (`c_function_signature.rs`):
arguments and return type. -/
structure CFunctionSignature where
  arguments : List CFunctionArgument
  return_type : CTypeExtended
deriving DecidableEq

/-- Modelled from the spec: `arguments_to_c_code` (outside the sampled
sources) spells the C argument list as comma-separated `<type> <name>`
pairs. -/
def CFunctionSignature.arguments_to_c_code (s : CFunctionSignature) : String :=
  String.intercalate ", " (s.arguments.map (fun a => a.argument_type.c_type.to_c_code ++ " " ++ a.name))

/-- One C++-side argument of the wrapped method (`cpp_method.rs`):
the generator reads only its type. -/
structure CppFunctionArgument where
  name : String
  argument_type : CppType
deriving DecidableEq

/-- The wrapped C++ method (`cpp_method.rs`), restricted to the fields read
by `c_generator.rs`. -/
structure CppMethod where
  name : String
  scope : CppMethodScope
  is_constructor : Bool
  is_destructor : Bool
  is_static : Bool
  is_protected : Bool
  is_signal : Bool
  arguments : List CppFunctionArgument
  return_type : Option CppType
deriving DecidableEq

/-- `CppAndCMethod` (`cpp_and_c_method.rs`): the C++ method together with its
derived C name, C signature and allocation place. -/
structure CppAndCMethod where
  cpp_method : CppMethod
  c_name : String
  c_signature : CFunctionSignature
  allocation_place : AllocationPlace
deriving DecidableEq

/-- `.find(|x| x.cpp_equivalent == role)` over the C arguments, as repeated
throughout `c_generator.rs`. -/
def find_c_argument (m : CppAndCMethod) (role : CFunctionArgumentCppEquivalent) :
    Option CFunctionArgument :=
  m.c_signature.arguments.find? (fun x => decide (x.cpp_equivalent = role))

/-- The Rust cast `i as i8` applied to the C++ argument index before it is
compared against `CFunctionArgumentCppEquivalent::Argument`. -/
def usize_as_i8 (i : Nat) : Int :=
  ((i : Int) + 128) % 256 - 128

namespace CppAndCMethod

/-- `CppAndCMethod::header_code` (`c_generator.rs` lines 31-36): the exported
C declaration line of one wrapper. -/
def header_code (m : CppAndCMethod) : String :=
  m.c_signature.return_type.c_type.to_c_code ++ " QTCW_EXPORT " ++ m.c_name ++
    "(" ++ m.c_signature.arguments_to_c_code ++ ");\n"

/-- `CppAndCMethod::convert_return_type` (`c_generator.rs` lines 38-97):
wraps the C++ call expression so that its value crosses the boundary, in the
fixed order: indirection change, then `reinterpret_cast` if renamed, then
`uint(...)` if flags-to-integer, then placement-new into the return-value
slot for stack-place non-constructors. -/
def convert_return_type (m : CppAndCMethod) (expression : String) :
    Except GenError String :=
  match
    (match m.c_signature.return_type.conversion.indirection_change with
     | IndirectionChange.NoChange => Except.ok expression
     | IndirectionChange.ValueToPointer =>
       match m.allocation_place with
       | AllocationPlace.Stack =>
         Except.error (GenError.ConventionViolation "stack allocated wrappers are expected to return void!")
       | AllocationPlace.Heap =>
         if m.cpp_method.is_constructor then Except.ok expression
         else
           match m.cpp_method.return_type with
           | none =>
             Except.error (GenError.OtherPanic "cpp method unexpectedly doesn't have return type")
           | some return_type =>
             match return_type.base with
             | CppTypeBase.Unspecified name =>
               Except.ok ("new " ++ name ++ "(" ++ expression ++ ")")
             | CppTypeBase.Other =>
               Except.error (GenError.NotSupported "new cpp types are not supported here yet")
     | IndirectionChange.ReferenceToPointer => Except.ok ("&" ++ expression))
  with
  | Except.error e => Except.error e
  | Except.ok result =>
    let result :=
      if m.c_signature.return_type.conversion.renamed then
        "reinterpret_cast<" ++ m.c_signature.return_type.c_type.to_c_code ++ ">(" ++
          result ++ ")"
      else result
    let result :=
      if m.c_signature.return_type.conversion.qflags_to_uint then
        "uint(" ++ result ++ ")"
      else result
    if m.allocation_place = AllocationPlace.Stack ∧ m.cpp_method.is_constructor = false then
      match find_c_argument m CFunctionArgumentCppEquivalent.ReturnValue with
      | some arg =>
        match m.cpp_method.return_type with
        | none =>
          Except.error (GenError.OtherPanic "cpp method unexpectedly doesn't have return type")
        | some return_type =>
          match return_type.base with
          | CppTypeBase.Unspecified name =>
            Except.ok ("new(" ++ arg.name ++ ") " ++ name ++ "(" ++ result ++ ")")
          | CppTypeBase.Other =>
            Except.error (GenError.NotSupported "new cpp types are not supported here yet")
      | none => Except.ok result
    else Except.ok result

/-- The per-argument value computation of `CppAndCMethod::arguments_values`
(`c_generator.rs` lines 105-126): dereference for pointer conversion,
`reinterpret_cast` if renamed, flags-object reconstruction if
flags-to-integer. -/
def argument_value (cpp_argument : CppFunctionArgument)
    (c_argument : CFunctionArgument) : Except GenError String :=
  let result := c_argument.name
  let result :=
    match c_argument.argument_type.conversion.indirection_change with
    | IndirectionChange.ValueToPointer => "*" ++ result
    | IndirectionChange.ReferenceToPointer => "*" ++ result
    | IndirectionChange.NoChange => result
  match
    (if c_argument.argument_type.conversion.renamed then
       match cpp_argument.argument_type.to_cpp_code with
       | some code => Except.ok ("reinterpret_cast<" ++ code ++ ">(" ++ result ++ ")")
       | none => Except.error (GenError.OtherPanic "to_cpp_code failed")
     else Except.ok result)
  with
  | Except.error e => Except.error e
  | Except.ok result =>
    if c_argument.argument_type.conversion.qflags_to_uint then
      match cpp_argument.argument_type.base with
      | CppTypeBase.Unspecified name => Except.ok (name ++ "(" ++ result ++ ")")
      | CppTypeBase.Other =>
        Except.error (GenError.NotSupported "new cpp types are not supported here yet")
    else Except.ok result

/-- The loop of `CppAndCMethod::arguments_values` (`c_generator.rs` lines
100-130): for each C++ argument (starting at index `i`), locate the C
argument with the matching positional role (a missing one is fatal) and
compute its forwarded value. -/
def filled_arguments (m : CppAndCMethod) :
    Nat → List CppFunctionArgument → Except GenError (List String)
| _, [] => Except.ok []
| i, cpp_argument :: rest =>
  match find_c_argument m (CFunctionArgumentCppEquivalent.Argument (usize_as_i8 i)) with
  | none => Except.error (GenError.MappingError "Error: no positional argument found")
  | some c_argument =>
    match argument_value cpp_argument c_argument with
    | Except.error e => Except.error e
    | Except.ok v =>
      match filled_arguments m (i + 1) rest with
      | Except.error e => Except.error e
      | Except.ok tail => Except.ok (v :: tail)

/-- `CppAndCMethod::arguments_values` (`c_generator.rs` lines 99-133): the
comma-separated forwarded C++ argument list. -/
def arguments_values (m : CppAndCMethod) : Except GenError String :=
  match filled_arguments m 0 m.cpp_method.arguments with
  | Except.error e => Except.error e
  | Except.ok filled => Except.ok (String.intercalate ", " filled)

/-- The scope specifier of a non-constructor call (`c_generator.rs` lines
164-179): class-qualified for static methods, dispatched through the `this`
receiver for instance methods (missing receiver is fatal), empty for free
functions. -/
def scope_specifier (m : CppAndCMethod) : Except GenError String :=
  match m.cpp_method.scope with
  | CppMethodScope.Class class_name =>
    if m.cpp_method.is_static then Except.ok (class_name ++ "::")
    else
      match find_c_argument m CFunctionArgumentCppEquivalent.This with
      | some arg => Except.ok (arg.name ++ "->")
      | none => Except.error (GenError.MappingError "Error: no this argument found")
  | CppMethodScope.Global => Except.ok ""

/-- The call target of a non-destructor call (`c_generator.rs` lines
146-181): `new` (placement or heap) for constructors, otherwise the
scope-qualified method name. -/
def result_without_args (m : CppAndCMethod) : Except GenError String :=
  if m.cpp_method.is_constructor then
    match m.cpp_method.scope with
    | CppMethodScope.Class class_name =>
      match m.allocation_place with
      | AllocationPlace.Stack =>
        match find_c_argument m CFunctionArgumentCppEquivalent.ReturnValue with
        | some arg => Except.ok ("new(" ++ arg.name ++ ") " ++ class_name)
        | none =>
          Except.error (GenError.MappingError "no return value equivalent argument found")
      | AllocationPlace.Heap => Except.ok ("new " ++ class_name)
    | CppMethodScope.Global =>
      Except.error (GenError.OtherPanic "constructor not in class scope")
  else
    match scope_specifier m with
    | Except.error e => Except.error e
    | Except.ok scope => Except.ok (scope ++ m.cpp_method.name)

/-- The inner C++ expression handed to `convert_return_type` inside
`CppAndCMethod::returned_expression` (`c_generator.rs` lines 136-183):
either the destructor helper call or the call target applied to the
forwarded arguments. -/
def called_expression (m : CppAndCMethod) : Except GenError String :=
  if m.cpp_method.is_destructor then
    match find_c_argument m CFunctionArgumentCppEquivalent.This with
    | some arg => Except.ok ("qtcw_call_destructor(" ++ arg.name ++ ")")
    | none => Except.error (GenError.MappingError "Error: no this argument found")
  else
    match result_without_args m with
    | Except.error e => Except.error e
    | Except.ok target =>
      match arguments_values m with
      | Except.error e => Except.error e
      | Except.ok args => Except.ok (target ++ "(" ++ args ++ ")")

/-- `CppAndCMethod::returned_expression` (`c_generator.rs` lines 135-184):
the converted call expression. -/
def returned_expression (m : CppAndCMethod) : Except GenError String :=
  match called_expression m with
  | Except.error e => Except.error e
  | Except.ok inner => convert_return_type m inner

/-- `CppAndCMethod::source_body` (`c_generator.rs` lines 187-207): `delete`
for heap destructors, otherwise the returned expression, prefixed with
`return` exactly when the C return type is not void. -/
def source_body (m : CppAndCMethod) : Except GenError String :=
  if m.cpp_method.is_destructor = true ∧ m.allocation_place = AllocationPlace.Heap then
    match find_c_argument m CFunctionArgumentCppEquivalent.This with
    | some arg => Except.ok ("delete " ++ arg.name ++ ";\n")
    | none => Except.error (GenError.MappingError "Error: no this argument found")
  else
    match returned_expression m with
    | Except.error e => Except.error e
    | Except.ok expr =>
      Except.ok ((if m.c_signature.return_type = CTypeExtended.void then "" else "return ") ++
        expr ++ ";\n")

/-- `CppAndCMethod::source_code` (`c_generator.rs` lines 209-215): the full
wrapper definition text. -/
def source_code (m : CppAndCMethod) : Except GenError String :=
  match source_body m with
  | Except.error e => Except.error e
  | Except.ok body =>
    Except.ok (m.c_signature.return_type.c_type.to_c_code ++ " " ++ m.c_name ++ "(" ++
      m.c_signature.arguments_to_c_code ++ ") \x7b\n  " ++ body ++ "\x7d\n\n")

end CppAndCMethod

/-! Concrete metadata fixtures used by witnesses and counterexamples. -/

/-- A generator with empty metadata. -/
def gen0 : CGenerator :=
  { types := fun _ => none, enum_values := fun _ _ => none, to_c_type := fun _ => none }

/-- A translated type whose C base name is `wchar_t`; its C++ side is
deliberately an unsupported base and its conversion is marked renamed, to
exercise the early return. -/
def wchar_cte : CTypeExtended :=
  { c_type := { base := "wchar_t", is_pointer := false },
    cpp_type := { is_const := false, indirection := CppTypeIndirection.None,
                  base := CppTypeBase.Other },
    conversion := { indirection_change := IndirectionChange.NoChange,
                    renamed := true, qflags_to_uint := false } }

/-- A generator whose every type has `Unsupported` origin and `Unknown` kind. -/
def gen_unsupported : CGenerator :=
  { types := fun _ => some { origin := CppTypeOrigin.Unsupported "unsupported",
                             kind := CppTypeKind.Unknown },
    enum_values := fun _ _ => none, to_c_type := fun _ => none }

/-- An `Unsupported`-origin type whose C base name happens to be `wchar_t`. -/
def unsupported_wchar_cte : CTypeExtended :=
  { c_type := { base := "wchar_t", is_pointer := false },
    cpp_type := { is_const := false, indirection := CppTypeIndirection.None,
                  base := CppTypeBase.Unspecified "QWChar" },
    conversion := { indirection_change := IndirectionChange.NoChange,
                    renamed := false, qflags_to_uint := false } }

/-- A generator knowing the class `Widget`, owned by `widget.h`, of unknown
byte size. -/
def gen_nosize : CGenerator :=
  { types := fun n => if n = "Widget" then
      some { origin := CppTypeOrigin.Qt "widget.h", kind := CppTypeKind.Class none }
    else none,
    enum_values := fun _ _ => none, to_c_type := fun _ => none }

/-- The translated `Widget` type. -/
def widget_cte : CTypeExtended :=
  { c_type := { base := "Widget", is_pointer := false },
    cpp_type := { is_const := false, indirection := CppTypeIndirection.None,
                  base := CppTypeBase.Unspecified "Widget" },
    conversion := { indirection_change := IndirectionChange.NoChange,
                    renamed := false, qflags_to_uint := false } }

/-- A generator knowing the class `Window`, owned by `window.h`, of byte
size 24. -/
def gen_window : CGenerator :=
  { types := fun n => if n = "Window" then
      some { origin := CppTypeOrigin.Qt "window.h", kind := CppTypeKind.Class (some 24) }
    else none,
    enum_values := fun _ _ => none, to_c_type := fun _ => none }

/-- The translated `Window` type. -/
def window_cte : CTypeExtended :=
  { c_type := { base := "Window", is_pointer := false },
    cpp_type := { is_const := false, indirection := CppTypeIndirection.None,
                  base := CppTypeBase.Unspecified "Window" },
    conversion := { indirection_change := IndirectionChange.NoChange,
                    renamed := false, qflags_to_uint := false } }

/-- A generator knowing the enum `Color` with enumerators `A = 0`, `B = 1`,
owned by `color.h`. -/
def gen_color : CGenerator :=
  { types := fun n => if n = "Color" then
      some { origin := CppTypeOrigin.Qt "color.h",
             kind := CppTypeKind.Enum [{ name := "A" }, { name := "B" }] }
    else none,
    enum_values := fun t v =>
      if t = "Color" then
        if v = "A" then some 0 else if v = "B" then some 1 else none
      else none,
    to_c_type := fun _ => none }

/-- The translated `Color` type. -/
def color_cte : CTypeExtended :=
  { c_type := { base := "Color", is_pointer := false },
    cpp_type := { is_const := false, indirection := CppTypeIndirection.None,
                  base := CppTypeBase.Unspecified "Color" },
    conversion := { indirection_change := IndirectionChange.NoChange,
                    renamed := false, qflags_to_uint := false } }

/-- The integer values of `Color`'s enumerators, as a function. -/
def color_values (x : EnumValue) : Int :=
  if x.name = "A" then 0 else 1

/-- A generator knowing the flags type `Alignment`, owned by `flags.h`. -/
def gen_alignment : CGenerator :=
  { types := fun n => if n = "Alignment" then
      some { origin := CppTypeOrigin.Qt "flags.h", kind := CppTypeKind.Flags }
    else none,
    enum_values := fun _ _ => none, to_c_type := fun _ => none }

/-- The translated `Alignment` flags type. -/
def alignment_cte : CTypeExtended :=
  { c_type := { base := "Alignment", is_pointer := false },
    cpp_type := { is_const := false, indirection := CppTypeIndirection.None,
                  base := CppTypeBase.Unspecified "Alignment" },
    conversion := { indirection_change := IndirectionChange.NoChange,
                    renamed := false, qflags_to_uint := true } }

/-! Concrete method fixtures. -/

/-- A C++ type for a class value, by name. -/
def cpp_class_type (n : String) : CppType :=
  { is_const := false, indirection := CppTypeIndirection.None,
    base := CppTypeBase.Unspecified n }

/-- The translated return type of a method returning class `n` by value:
a pointer on the C side, with a `ValueToPointer` conversion. -/
def class_value_return (n : String) : CTypeExtended :=
  { c_type := { base := n, is_pointer := true },
    cpp_type := cpp_class_type n,
    conversion := { indirection_change := IndirectionChange.ValueToPointer,
                    renamed := false, qflags_to_uint := false } }

/-- A stack-place wrapper for a static method returning `QPoint` by value:
its derived C return type is non-void, violating the stack convention. -/
def stack_value_method : CppAndCMethod :=
  { cpp_method :=
      { name := "pos", scope := CppMethodScope.Class "QWidget",
        is_constructor := false, is_destructor := false, is_static := true,
        is_protected := false, is_signal := false,
        arguments := [], return_type := some (cpp_class_type "QPoint") },
    c_name := "QWidget_pos",
    c_signature := { arguments := [], return_type := class_value_return "QPoint" },
    allocation_place := AllocationPlace.Stack }

/-- The same static `QPoint`-returning method wrapped with heap place. -/
def heap_value_method : CppAndCMethod :=
  { cpp_method :=
      { name := "pos", scope := CppMethodScope.Class "QWidget",
        is_constructor := false, is_destructor := false, is_static := true,
        is_protected := false, is_signal := false,
        arguments := [], return_type := some (cpp_class_type "QPoint") },
    c_name := "QWidget_pos",
    c_signature := { arguments := [], return_type := class_value_return "QPoint" },
    allocation_place := AllocationPlace.Heap }

/-- A free function of one `int` argument whose C signature wrongly lacks the
positional argument for index 0. -/
def missing_positional_method : CppAndCMethod :=
  { cpp_method :=
      { name := "qAbs", scope := CppMethodScope.Global,
        is_constructor := false, is_destructor := false, is_static := false,
        is_protected := false, is_signal := false,
        arguments := [{ name := "x", argument_type :=
          { is_const := false, indirection := CppTypeIndirection.None,
            base := CppTypeBase.Unspecified "int" } }],
        return_type := none },
    c_name := "qtcw_qAbs",
    c_signature := { arguments := [], return_type := CTypeExtended.void },
    allocation_place := AllocationPlace.Heap }

/-- A destructor whose C signature wrongly lacks the `This` receiver. -/
def missing_this_destructor : CppAndCMethod :=
  { cpp_method :=
      { name := "~QWidget", scope := CppMethodScope.Class "QWidget",
        is_constructor := false, is_destructor := true, is_static := false,
        is_protected := false, is_signal := false,
        arguments := [], return_type := none },
    c_name := "QWidget_destructor",
    c_signature := { arguments := [], return_type := CTypeExtended.void },
    allocation_place := AllocationPlace.Heap }

/-- A non-static instance method whose C signature wrongly lacks the `This`
receiver. -/
def missing_this_instance_method : CppAndCMethod :=
  { cpp_method :=
      { name := "show", scope := CppMethodScope.Class "QWidget",
        is_constructor := false, is_destructor := false, is_static := false,
        is_protected := false, is_signal := false,
        arguments := [], return_type := none },
    c_name := "QWidget_show",
    c_signature := { arguments := [], return_type := CTypeExtended.void },
    allocation_place := AllocationPlace.Heap }

/-- A stack-place constructor whose C signature wrongly lacks the
return-value slot. -/
def missing_slot_constructor : CppAndCMethod :=
  { cpp_method :=
      { name := "QWidget", scope := CppMethodScope.Class "QWidget",
        is_constructor := true, is_destructor := false, is_static := false,
        is_protected := false, is_signal := false,
        arguments := [], return_type := some (cpp_class_type "QWidget") },
    c_name := "QWidget_constructor",
    c_signature := { arguments := [], return_type := CTypeExtended.void },
    allocation_place := AllocationPlace.Stack }

/-- The C++ side of a flags-typed argument named `alignment`. -/
def flags_cpp_arg : CppFunctionArgument :=
  { name := "alignment",
    argument_type := { is_const := false, indirection := CppTypeIndirection.None,
                       base := CppTypeBase.Unspecified "Alignment" } }

/-- The C side of the same flags-typed argument: an unsigned integer with the
flags-to-integer conversion. -/
def flags_c_arg : CFunctionArgument :=
  { name := "alignment",
    argument_type :=
      { c_type := { base := "Alignment", is_pointer := false },
        cpp_type := { is_const := false, indirection := CppTypeIndirection.None,
                      base := CppTypeBase.Unspecified "Alignment" },
        conversion := { indirection_change := IndirectionChange.NoChange,
                        renamed := false, qflags_to_uint := true } },
    cpp_equivalent := CFunctionArgumentCppEquivalent.Argument 0 }

/-- An `Unsupported`-origin type with an ordinary C base name. -/
def unsupported_cte : CTypeExtended :=
  { c_type := { base := "QProcess", is_pointer := false },
    cpp_type := { is_const := false, indirection := CppTypeIndirection.None,
                  base := CppTypeBase.Unspecified "QProcess" },
    conversion := { indirection_change := IndirectionChange.NoChange,
                    renamed := false, qflags_to_uint := false } }

/-! Helper lemmas shared by the claim theorems. -/

/-- When every enumerator value lookup succeeds, the enumerator lines are the
pointwise formatted entries. -/
theorem enum_values_entries_ok (gen : CGenerator) (tb cb : String)
    (values : List EnumValue) (g : EnumValue → Int)
    (h : ∀ x ∈ values, gen.enum_values tb x.name = some (g x)) :
    enum_values_entries gen tb cb values =
      Except.ok (values.map (fun x => "  " ++ cb ++ "_" ++ x.name ++ " = " ++ toString (g x))) := by
  induction values with
  | nil => simp [enum_values_entries]
  | cons x rest ih =>
    have hx : gen.enum_values tb x.name = some (g x) := h x (by simp)
    have hrest : ∀ y ∈ rest, gen.enum_values tb y.name = some (g y) :=
      fun y hy => h y (by simp [hy])
    simp [enum_values_entries, hx, ih hrest]

/-- The per-argument value computation never fails on a named C++ argument
type. -/
theorem argument_value_isOk (cpp_argument : CppFunctionArgument) (c_argument : CFunctionArgument)
    (h : cpp_argument.argument_type.base ≠ CppTypeBase.Other) :
    ∃ s, CppAndCMethod.argument_value cpp_argument c_argument = Except.ok s := by
  rcases hb : cpp_argument.argument_type.base with nm | _
  · rcases hi : c_argument.argument_type.conversion.indirection_change <;>
      rcases hr : c_argument.argument_type.conversion.renamed <;>
      rcases hq : c_argument.argument_type.conversion.qflags_to_uint <;>
      simp [CppAndCMethod.argument_value, hi, hr, hq, hb, CppType.to_cpp_code]
  · exact absurd hb h

/-- If some positional role is missing (and the argument types are all
named), the argument-filling loop fails with the mapping error. -/
theorem filled_arguments_missing (m : CppAndCMethod) (start : Nat)
    (arguments : List CppFunctionArgument)
    (hbase : ∀ a ∈ arguments, a.argument_type.base ≠ CppTypeBase.Other)
    (hmiss : ∃ j, j < arguments.length ∧
      find_c_argument m (CFunctionArgumentCppEquivalent.Argument (usize_as_i8 (start + j))) = none) :
    CppAndCMethod.filled_arguments m start arguments =
      Except.error (GenError.MappingError "Error: no positional argument found") := by
  induction arguments generalizing start with
  | nil =>
    rcases hmiss with ⟨j, hj, -⟩
    simp at hj
  | cons a rest ih =>
    rcases hf : find_c_argument m (CFunctionArgumentCppEquivalent.Argument (usize_as_i8 start)) with _ | c
    · simp [CppAndCMethod.filled_arguments, hf]
    · rcases hmiss with ⟨j, hj, hnone⟩
      rcases j with _ | j'
      · rw [Nat.add_zero] at hnone
        rw [hnone] at hf
        exact absurd hf (by simp)
      · have ha : a.argument_type.base ≠ CppTypeBase.Other := hbase a (by simp)
        rcases argument_value_isOk a c ha with ⟨s, hs⟩
        have hrest : ∃ j, j < rest.length ∧
            find_c_argument m (CFunctionArgumentCppEquivalent.Argument (usize_as_i8 (start + 1 + j))) = none := by
          refine ⟨j', by simpa using hj, ?_⟩
          have harith : start + 1 + j' = start + (j' + 1) := by omega
          rw [harith]
          exact hnone
        have htail := ih (start + 1) (fun b hb => hbase b (by simp [hb])) hrest
        simp [CppAndCMethod.filled_arguments, hf, hs, htail]

/-- A failing body makes the whole wrapper definition fail. -/
theorem source_code_error_of_body (m : CppAndCMethod) (e : GenError)
    (h : CppAndCMethod.source_body m = Except.error e) :
    CppAndCMethod.source_code m = Except.error e := by
  simp [CppAndCMethod.source_code, h]

/-- A failing call expression makes the body of a non-destructor fail. -/
theorem source_body_error_of_called (m : CppAndCMethod) (e : GenError)
    (hd : m.cpp_method.is_destructor = false)
    (h : CppAndCMethod.called_expression m = Except.error e) :
    CppAndCMethod.source_body m = Except.error e := by
  simp [CppAndCMethod.source_body, CppAndCMethod.returned_expression, hd, h]

/-- A failing returned expression makes the body of a non-destructor fail. -/
theorem source_body_error_of_returned (m : CppAndCMethod) (e : GenError)
    (hd : m.cpp_method.is_destructor = false)
    (h : CppAndCMethod.returned_expression m = Except.error e) :
    CppAndCMethod.source_body m = Except.error e := by
  simp [CppAndCMethod.source_body, hd, h]

/-! Claim theorems. -/

/-- Claim C1: for a class type with a recorded byte size, declaration
emission produces the full definition `struct QTCW_<Class> { char
space[<size>]; };` (payload exactly the recorded size) followed by the
typedef exactly when the current output unit is the class's owning header;
from any other unit only the forward declaration `struct QTCW_<Class>;` plus
the typedef is emitted, with no sized payload. -/
theorem c1_class_full_iff_owning_header (gen : CGenerator) (fuel : Nat)
    (cte : CTypeExtended) (cur : String) (visited : List String)
    (nm owner : String) (sz : Nat) (ti : CppTypeData)
    (hv : cte.c_type.base ∉ visited)
    (hw : cte.c_type.base ≠ "wchar_t")
    (hb : cte.cpp_type.base = CppTypeBase.Unspecified nm)
    (ht : gen.types nm = some ti)
    (ho : ti.origin = CppTypeOrigin.Qt owner)
    (hk : ti.kind = CppTypeKind.Class (some sz))
    (hcc : contains_double_colon cte.c_type.base = false)
    (hr : cte.conversion.renamed = false) :
    generate_type_declaration gen (fuel + 1) cte cur visited =
      Except.ok (only_c_code
        ((if cur == owner then
            "struct QTCW_" ++ cte.c_type.base ++ " \x7b char space[" ++ toString sz ++ "]; \x7d;\n"
          else
            "struct QTCW_" ++ cte.c_type.base ++ ";\n") ++
         "typedef struct QTCW_" ++ cte.c_type.base ++ " " ++ cte.c_type.base ++ ";\n\n"),
        visited ++ [cte.c_type.base]) := by
  cases hc : cur == owner <;>
    simp [generate_type_declaration, struct_declaration, hv, hw, hb, ht, ho, hk, hcc, hr, hc]

/-- Witness for C1 at the class `Window` of size 24 owned by `window.h`:
the full sized definition in the owning header, the forward declaration in
`other.h`. -/
theorem c1_witness :
    generate_type_declaration gen_window 1 window_cte "window.h" [] =
      Except.ok (only_c_code
        "struct QTCW_Window \x7b char space[24]; \x7d;\ntypedef struct QTCW_Window Window;\n\n",
        ["Window"]) ∧
    generate_type_declaration gen_window 1 window_cte "other.h" [] =
      Except.ok (only_c_code
        "struct QTCW_Window;\ntypedef struct QTCW_Window Window;\n\n",
        ["Window"]) := by
  constructor
  · exact (c1_class_full_iff_owning_header gen_window 0 window_cte "window.h" []
      "Window" "window.h" 24 _ (by simp) (by decide) rfl rfl rfl rfl (by decide) rfl).trans rfl
  · exact (c1_class_full_iff_owning_header gen_window 0 window_cte "other.h" []
      "Window" "window.h" 24 _ (by simp) (by decide) rfl rfl rfl rfl (by decide) rfl).trans rfl

/-- Claim C2: a method wrapped with stack allocation place whose return
conversion is `ValueToPointer` (a non-void derived C return type) is a fatal
`ConventionViolation`; the wrapper definition text is never produced. -/
theorem c2_stack_value_return_fatal (m : CppAndCMethod)
    (hp : m.allocation_place = AllocationPlace.Stack)
    (hc : m.c_signature.return_type.conversion.indirection_change = IndirectionChange.ValueToPointer) :
    (∀ expression, CppAndCMethod.convert_return_type m expression =
      Except.error (GenError.ConventionViolation "stack allocated wrappers are expected to return void!")) ∧
    (∃ e, CppAndCMethod.source_code m = Except.error e) := by
  have hconv : ∀ expression, CppAndCMethod.convert_return_type m expression =
      Except.error (GenError.ConventionViolation "stack allocated wrappers are expected to return void!") := by
    intro expression
    simp [CppAndCMethod.convert_return_type, hp, hc]
  refine ⟨hconv, ?_⟩
  rcases hce : CppAndCMethod.called_expression m with e | s
  · exact ⟨e, by simp [CppAndCMethod.source_code, CppAndCMethod.source_body,
      CppAndCMethod.returned_expression, hce, hp]⟩
  · exact ⟨GenError.ConventionViolation "stack allocated wrappers are expected to return void!",
      by simp [CppAndCMethod.source_code, CppAndCMethod.source_body,
        CppAndCMethod.returned_expression, hce, hconv s, hp]⟩

/-- Witness for C2 at a stack-place wrapper of a static method returning
`QPoint` by value. -/
theorem c2_witness :
    CppAndCMethod.convert_return_type stack_value_method "QWidget::pos()" =
      Except.error (GenError.ConventionViolation "stack allocated wrappers are expected to return void!") ∧
    (∃ e, CppAndCMethod.source_code stack_value_method = Except.error e) :=
  ⟨(c2_stack_value_return_fatal stack_value_method rfl rfl).1 "QWidget::pos()",
   (c2_stack_value_return_fatal stack_value_method rfl rfl).2⟩

/-- Counterexample to claim C3 as stated: an `Unsupported`-origin type whose
C base name is `wchar_t` reaches declaration emission with an empty visited
set and does NOT fail — the `wchar_t` short-circuit returns the include
directive successfully, producing non-empty declaration text. -/
theorem c3_counterexample :
    generate_type_declaration gen_unsupported 1 unsupported_wchar_cte "qstring.h" [] =
      Except.ok ("#ifndef __cplusplus // if C\n#include <wchar.h>\n#endif // if C\n\n", []) ∧
    ("#ifndef __cplusplus // if C\n#include <wchar.h>\n#endif // if C\n\n" : String) ≠ "" :=
  ⟨rfl, by decide⟩

/-- Claim C3, amended: a type that reaches the origin/kind dispatch of
declaration emission — its C base name neither already declared nor
`wchar_t`, its C++ base a named type present in the type map — fails fatally
with a metadata error, producing no declaration text, whenever its origin is
`Unsupported` or `Unknown`, or its origin is `Qt` and its kind is `Unknown`.
(Types short-circuited by the visited-set or `wchar_t` checks return text
without failing, and an `Unknown` kind is never examined under a non-`Qt`
origin.) -/
theorem c3_unsupported_unknown_fatal (gen : CGenerator) (fuel : Nat)
    (cte : CTypeExtended) (cur : String) (visited : List String)
    (nm : String) (ti : CppTypeData)
    (hv : cte.c_type.base ∉ visited)
    (hw : cte.c_type.base ≠ "wchar_t")
    (hb : cte.cpp_type.base = CppTypeBase.Unspecified nm)
    (ht : gen.types nm = some ti)
    (ho : (∃ s, ti.origin = CppTypeOrigin.Unsupported s) ∨ ti.origin = CppTypeOrigin.Unknown ∨
          (∃ f, ti.origin = CppTypeOrigin.Qt f ∧ ti.kind = CppTypeKind.Unknown)) :
    generate_type_declaration gen (fuel + 1) cte cur visited =
      Except.error (GenError.MetadataError "this type should have been filtered previously") := by
  rcases ho with ⟨s, ho⟩ | ho | ⟨f, ho, hk⟩ <;>
    simp [generate_type_declaration, hv, hw, hb, ht, ho]
  simp [hk]

/-- Witness for the amended C3 at an `Unsupported`-origin type named
`QProcess`. -/
theorem c3_witness :
    generate_type_declaration gen_unsupported 1 unsupported_cte "qstring.h" [] =
      Except.error (GenError.MetadataError "this type should have been filtered previously") :=
  c3_unsupported_unknown_fatal gen_unsupported 0 unsupported_cte "qstring.h" []
    "QProcess" _ (by simp) (by decide) rfl rfl (Or.inl ⟨"unsupported", rfl⟩)

/-- Claim C4: a required C argument role that is absent from the C
signature is fatal (`MappingError`) and no wrapper text is produced:
(i) a missing `PositionalArgument(i)` for a C++ argument index `i` (with all
argument types named), (ii) a missing `This` receiver of a destructor,
(iii) a missing `This` receiver of a non-static instance call, (iv) a
missing `ReturnValue` slot of a stack-place constructor. -/
theorem c4_missing_role_fatal :
    (∀ m : CppAndCMethod,
      (∀ a ∈ m.cpp_method.arguments, a.argument_type.base ≠ CppTypeBase.Other) →
      (∃ i, i < m.cpp_method.arguments.length ∧
        find_c_argument m (CFunctionArgumentCppEquivalent.Argument (usize_as_i8 i)) = none) →
      CppAndCMethod.arguments_values m =
        Except.error (GenError.MappingError "Error: no positional argument found") ∧
      (m.cpp_method.is_destructor = false →
        ∃ e, CppAndCMethod.source_code m = Except.error e)) ∧
    (∀ m : CppAndCMethod,
      m.cpp_method.is_destructor = true →
      find_c_argument m CFunctionArgumentCppEquivalent.This = none →
      CppAndCMethod.source_body m =
        Except.error (GenError.MappingError "Error: no this argument found") ∧
      CppAndCMethod.source_code m =
        Except.error (GenError.MappingError "Error: no this argument found")) ∧
    (∀ (m : CppAndCMethod) (c : String),
      m.cpp_method.is_constructor = false →
      m.cpp_method.is_destructor = false →
      m.cpp_method.scope = CppMethodScope.Class c →
      m.cpp_method.is_static = false →
      find_c_argument m CFunctionArgumentCppEquivalent.This = none →
      CppAndCMethod.returned_expression m =
        Except.error (GenError.MappingError "Error: no this argument found") ∧
      CppAndCMethod.source_code m =
        Except.error (GenError.MappingError "Error: no this argument found")) ∧
    (∀ (m : CppAndCMethod) (c : String),
      m.cpp_method.is_constructor = true →
      m.cpp_method.is_destructor = false →
      m.cpp_method.scope = CppMethodScope.Class c →
      m.allocation_place = AllocationPlace.Stack →
      find_c_argument m CFunctionArgumentCppEquivalent.ReturnValue = none →
      CppAndCMethod.returned_expression m =
        Except.error (GenError.MappingError "no return value equivalent argument found") ∧
      CppAndCMethod.source_code m =
        Except.error (GenError.MappingError "no return value equivalent argument found")) := by
  refine ⟨?_, ?_, ?_, ?_⟩
  · intro m hbase hmiss
    have hmiss0 : ∃ j, j < m.cpp_method.arguments.length ∧
        find_c_argument m (CFunctionArgumentCppEquivalent.Argument (usize_as_i8 (0 + j))) = none := by
      rcases hmiss with ⟨i, hi, hf⟩
      exact ⟨i, hi, by rw [Nat.zero_add]; exact hf⟩
    have hargs : CppAndCMethod.arguments_values m =
        Except.error (GenError.MappingError "Error: no positional argument found") := by
      simp [CppAndCMethod.arguments_values,
        filled_arguments_missing m 0 m.cpp_method.arguments hbase hmiss0]
    refine ⟨hargs, fun hd => ?_⟩
    rcases hrwa : CppAndCMethod.result_without_args m with e | target
    · exact ⟨e, source_code_error_of_body m e (source_body_error_of_called m e hd
        (by simp [CppAndCMethod.called_expression, hd, hrwa]))⟩
    · refine ⟨GenError.MappingError "Error: no positional argument found",
        source_code_error_of_body m _ (source_body_error_of_called m _ hd
          (by simp [CppAndCMethod.called_expression, hd, hrwa, hargs]))⟩
  · intro m hd hf
    have hbody : CppAndCMethod.source_body m =
        Except.error (GenError.MappingError "Error: no this argument found") := by
      rcases hp : m.allocation_place
      · simp [CppAndCMethod.source_body, CppAndCMethod.returned_expression,
          CppAndCMethod.called_expression, hd, hp, hf]
      · simp [CppAndCMethod.source_body, hd, hp, hf]
    exact ⟨hbody, source_code_error_of_body m _ hbody⟩
  · intro m c hc hd hs hst hf
    have hret : CppAndCMethod.returned_expression m =
        Except.error (GenError.MappingError "Error: no this argument found") := by
      simp [CppAndCMethod.returned_expression, CppAndCMethod.called_expression,
        CppAndCMethod.result_without_args, CppAndCMethod.scope_specifier, hc, hd, hs, hst, hf]
    exact ⟨hret, source_code_error_of_body m _ (source_body_error_of_returned m _ hd hret)⟩
  · intro m c hc hd hs hp hf
    have hret : CppAndCMethod.returned_expression m =
        Except.error (GenError.MappingError "no return value equivalent argument found") := by
      simp [CppAndCMethod.returned_expression, CppAndCMethod.called_expression,
        CppAndCMethod.result_without_args, hc, hd, hs, hp, hf]
    exact ⟨hret, source_code_error_of_body m _ (source_body_error_of_returned m _ hd hret)⟩

/-- Witness for C4 at four malformed methods: a free function missing its
positional argument, a destructor and an instance method missing the `This`
receiver, and a stack constructor missing the return-value slot. -/
theorem c4_witness :
    CppAndCMethod.arguments_values missing_positional_method =
      Except.error (GenError.MappingError "Error: no positional argument found") ∧
    (∃ e, CppAndCMethod.source_code missing_positional_method = Except.error e) ∧
    CppAndCMethod.source_body missing_this_destructor =
      Except.error (GenError.MappingError "Error: no this argument found") ∧
    CppAndCMethod.source_code missing_this_destructor =
      Except.error (GenError.MappingError "Error: no this argument found") ∧
    CppAndCMethod.returned_expression missing_this_instance_method =
      Except.error (GenError.MappingError "Error: no this argument found") ∧
    CppAndCMethod.source_code missing_this_instance_method =
      Except.error (GenError.MappingError "Error: no this argument found") ∧
    CppAndCMethod.returned_expression missing_slot_constructor =
      Except.error (GenError.MappingError "no return value equivalent argument found") ∧
    CppAndCMethod.source_code missing_slot_constructor =
      Except.error (GenError.MappingError "no return value equivalent argument found") := by
  have h := c4_missing_role_fatal
  have h1 := h.1 missing_positional_method (by decide) ⟨0, by decide, rfl⟩
  have h2 := h.2.1 missing_this_destructor rfl rfl
  have h3 := h.2.2.1 missing_this_instance_method "QWidget" rfl rfl rfl rfl rfl
  have h4 := h.2.2.2 missing_slot_constructor "QWidget" rfl rfl rfl rfl rfl
  exact ⟨h1.1, h1.2 rfl, h2.1, h2.2, h3.1, h3.2, h4.1, h4.2⟩

/-- Counterexample to claim C5 as stated: the class `Widget` has unknown
byte size, yet requesting its declaration in its owning header `widget.h`
does NOT fail — the generator succeeds and emits a forward declaration. -/
theorem c5_counterexample :
    generate_type_declaration gen_nosize 1 widget_cte "widget.h" [] =
      Except.ok (only_c_code "struct QTCW_Widget;\ntypedef struct QTCW_Widget Widget;\n\n",
        ["Widget"]) ∧
    only_c_code "struct QTCW_Widget;\ntypedef struct QTCW_Widget Widget;\n\n" ≠ "" :=
  ⟨rfl, by decide⟩

/-- Claim C5, amended: for a class type whose byte size is unknown,
requesting its declaration — in its owning header or anywhere else — does
not fail; the generator emits only the forward declaration (struct tag plus
typedef), never a sized payload. -/
theorem c5_unknown_size_forward_only (gen : CGenerator) (fuel : Nat)
    (cte : CTypeExtended) (cur : String) (visited : List String)
    (nm owner : String) (ti : CppTypeData)
    (hv : cte.c_type.base ∉ visited)
    (hw : cte.c_type.base ≠ "wchar_t")
    (hb : cte.cpp_type.base = CppTypeBase.Unspecified nm)
    (ht : gen.types nm = some ti)
    (ho : ti.origin = CppTypeOrigin.Qt owner)
    (hk : ti.kind = CppTypeKind.Class none)
    (hcc : contains_double_colon cte.c_type.base = false)
    (hr : cte.conversion.renamed = false) :
    generate_type_declaration gen (fuel + 1) cte cur visited =
      Except.ok (only_c_code
        (("struct QTCW_" ++ cte.c_type.base ++ ";\n") ++
         "typedef struct QTCW_" ++ cte.c_type.base ++ " " ++ cte.c_type.base ++ ";\n\n"),
        visited ++ [cte.c_type.base]) := by
  cases hc : cur == owner <;>
    simp [generate_type_declaration, struct_declaration, hv, hw, hb, ht, ho, hk, hcc, hr, hc]

/-- Witness for the amended C5: `Widget`, unknown size, declared from its
owning header `widget.h`. -/
theorem c5_witness :
    generate_type_declaration gen_nosize 3 widget_cte "widget.h" [] =
      Except.ok (only_c_code "struct QTCW_Widget;\ntypedef struct QTCW_Widget Widget;\n\n",
        ["Widget"]) :=
  (c5_unknown_size_forward_only gen_nosize 2 widget_cte "widget.h" [] "Widget" "widget.h"
    _ (by simp) (by decide) rfl rfl rfl rfl (by decide) rfl).trans rfl

/-- Claim C6: a non-constructor method returning a class by value with heap
place wraps the inner call as `new <Class>(<inner>)`, with the return
conversions composed in the fixed order: indirection change first, then
`reinterpret_cast` if renamed, then `uint(...)` if flags-to-integer; with a
pointer-to-class C return type (and no renaming/flags) the emitted wrapper
text is `<Class>* <name>(<args>) { return new <Class>(<inner>); }`. -/
theorem c6_heap_value_return (m : CppAndCMethod) (rt : CppType) (cls : String)
    (hctor : m.cpp_method.is_constructor = false)
    (hplace : m.allocation_place = AllocationPlace.Heap)
    (hconv : m.c_signature.return_type.conversion.indirection_change = IndirectionChange.ValueToPointer)
    (hrt : m.cpp_method.return_type = some rt)
    (hbase : rt.base = CppTypeBase.Unspecified cls) :
    (∀ expression, CppAndCMethod.convert_return_type m expression = Except.ok
      ((fun s => if m.c_signature.return_type.conversion.qflags_to_uint then "uint(" ++ s ++ ")" else s)
       ((fun s => if m.c_signature.return_type.conversion.renamed then
           "reinterpret_cast<" ++ m.c_signature.return_type.c_type.to_c_code ++ ">(" ++ s ++ ")"
         else s)
        ("new " ++ cls ++ "(" ++ expression ++ ")")))) ∧
    (∀ call, m.cpp_method.is_destructor = false →
      m.c_signature.return_type.conversion.renamed = false →
      m.c_signature.return_type.conversion.qflags_to_uint = false →
      m.c_signature.return_type.c_type = { base := cls, is_pointer := true } →
      CppAndCMethod.called_expression m = Except.ok call →
      CppAndCMethod.source_code m = Except.ok (cls ++ "*" ++ " " ++ m.c_name ++ "(" ++
        m.c_signature.arguments_to_c_code ++ ") \x7b\n  " ++ "return new " ++ cls ++
        "(" ++ call ++ ")" ++ ";\n" ++ "\x7d\n\n")) := by
  constructor
  · intro expression
    simp [CppAndCMethod.convert_return_type, hctor, hplace, hconv, hrt, hbase]
  · intro call hdtor hren hq hct hcall
    have hnv : ¬ (m.c_signature.return_type = CTypeExtended.void) := by
      intro h
      rw [h] at hct
      simp [CTypeExtended.void] at hct
    simp [CppAndCMethod.source_code, CppAndCMethod.source_body,
      CppAndCMethod.returned_expression, CppAndCMethod.convert_return_type, hctor, hdtor,
      hplace, hconv, hrt, hbase, hren, hq, hct, hcall, hnv, CType.to_c_code,
      ← String.append_assoc]

/-- Witness for C6 at the heap-place wrapper of static `QWidget::pos()`
returning `QPoint` by value. -/
theorem c6_witness :
    CppAndCMethod.convert_return_type heap_value_method "QWidget::pos()" =
      Except.ok "new QPoint(QWidget::pos())" ∧
    CppAndCMethod.source_code heap_value_method =
      Except.ok "QPoint* QWidget_pos() \x7b\n  return new QPoint(QWidget::pos());\n\x7d\n\n" := by
  have h := c6_heap_value_return heap_value_method (cpp_class_type "QPoint") "QPoint"
    rfl rfl rfl rfl rfl
  exact ⟨(h.1 "QWidget::pos()").trans rfl,
    (h.2 "QWidget::pos()" rfl rfl rfl rfl rfl).trans rfl⟩

/-- Counterexample to claim C7 as stated: declaring a type whose C base name
is `wchar_t` (not yet visited) emits non-empty text yet records nothing in
the visited set — so the same type emits the same non-empty text again
within the same unit, contradicting "on every call that emits text, the
type's name is recorded" and "a second emission of the same type in the same
unit yields empty text". -/
theorem c7_counterexample :
    generate_type_declaration gen0 1 wchar_cte "unit.h" [] =
      Except.ok ("#ifndef __cplusplus // if C\n#include <wchar.h>\n#endif // if C\n\n", []) ∧
    ("#ifndef __cplusplus // if C\n#include <wchar.h>\n#endif // if C\n\n" : String) ≠ "" :=
  ⟨rfl, by decide⟩

/-- Claim C7, amended: (a) if the type's C base name is already present in
the visited set, declaration emission returns empty text and leaves the set
unchanged; (b) every successful call that reaches the Qt-origin branch
records the type's name in the visited set before returning.  (Calls that
return via the `wchar_t` short-circuit emit the include directive without
recording the name — such a type is re-emitted on later references — and
built-in-origin types are likewise never recorded.) -/
theorem c7_visited_set_discipline :
    (∀ (gen : CGenerator) (fuel : Nat) (cte : CTypeExtended) (cur : String)
       (visited : List String),
      cte.c_type.base ∈ visited →
      generate_type_declaration gen (fuel + 1) cte cur visited = Except.ok ("", visited)) ∧
    (∀ (gen : CGenerator) (fuel : Nat) (cte : CTypeExtended) (cur : String)
       (visited : List String) (nm f : String) (ti : CppTypeData)
       (text : String) (vis : List String),
      cte.c_type.base ∉ visited →
      cte.c_type.base ≠ "wchar_t" →
      cte.cpp_type.base = CppTypeBase.Unspecified nm →
      gen.types nm = some ti →
      ti.origin = CppTypeOrigin.Qt f →
      generate_type_declaration gen (fuel + 1) cte cur visited = Except.ok (text, vis) →
      cte.c_type.base ∈ vis) := by
  constructor
  · intro gen fuel cte cur visited h1
    simp [generate_type_declaration, h1]
  · intro gen fuel cte cur visited nm f ti text vis hv hw hb ht ho hres
    simp [generate_type_declaration, hv, hw, hb, ht, ho] at hres
    rcases hk : ti.kind with _ | _ | values | _ | meaning | sz <;> rw [hk] at hres <;> simp at hres
    · rcases hres with ⟨-, hvis⟩
      simp [← hvis]
    · by_cases hc : cur = f
      · rcases he : enum_values_entries gen nm cte.c_type.base values with e | entries <;>
          simp [hc, he] at hres
        rcases hres with ⟨-, hvis⟩
        simp [← hvis]
      · simp [hc] at hres
        rcases hres with ⟨-, hvis⟩
        simp [← hvis]
    · rcases hres with ⟨-, hvis⟩
      simp [← hvis]
    · rcases hm : gen.to_c_type meaning with _ | cm <;> rw [hm] at hres <;> simp at hres
      rcases hg : generate_type_declaration gen fuel cm cur visited with e | p <;>
        rw [hg] at hres <;> simp at hres
      rcases hres with ⟨-, hvis⟩
      simp [← hvis]
    · rcases hs : struct_declaration cte.c_type.base ti (cur == f) with e | s <;>
        rw [hs] at hres <;> simp at hres
      rcases hres with ⟨-, hvis⟩
      simp [← hvis]

/-- Witness for the amended C7: an already-visited `Window` yields empty
text with the set unchanged, and a successful first declaration of `Window`
records its name. -/
theorem c7_witness :
    generate_type_declaration gen_window 1 window_cte "window.h" ["Window"] =
      Except.ok ("", ["Window"]) ∧
    window_cte.c_type.base ∈ (["Window"] : List String) := by
  constructor
  · exact c7_visited_set_discipline.1 gen_window 0 window_cte "window.h" ["Window"] (by decide)
  · exact c7_visited_set_discipline.2 gen_window 0 window_cte "window.h" [] "Window"
      "window.h" _ (only_c_code
        "struct QTCW_Window \x7b char space[24]; \x7d;\ntypedef struct QTCW_Window Window;\n\n")
      ["Window"] (by simp) (by decide) rfl rfl rfl rfl

/-- Claim C8: an enum type declared in its owning header yields the full
definition `typedef enum QTCW_<Name> { <Name>_<Enumerator> = <value>, ... }
<Name>;` listing every enumerator with its integer value qualified as
`<Name>_<Enumerator>`; in any other header only the forward form
`typedef enum QTCW_<Name> <Name>;` is emitted. -/
theorem c8_enum_full_iff_owning_header (gen : CGenerator) (fuel : Nat)
    (cte : CTypeExtended) (cur : String) (visited : List String)
    (nm owner : String) (ti : CppTypeData) (values : List EnumValue)
    (g : EnumValue → Int)
    (hv : cte.c_type.base ∉ visited)
    (hw : cte.c_type.base ≠ "wchar_t")
    (hb : cte.cpp_type.base = CppTypeBase.Unspecified nm)
    (ht : gen.types nm = some ti)
    (ho : ti.origin = CppTypeOrigin.Qt owner)
    (hk : ti.kind = CppTypeKind.Enum values)
    (hr : cte.conversion.renamed = false)
    (hg : ∀ x ∈ values, gen.enum_values nm x.name = some (g x)) :
    generate_type_declaration gen (fuel + 1) cte cur visited =
      Except.ok
        ((if cur == owner then
            only_c_code ("typedef enum QTCW_" ++ cte.c_type.base ++ " \x7b\n" ++
              String.intercalate ", \n"
                (values.map (fun x => "  " ++ cte.c_type.base ++ "_" ++ x.name ++ " = " ++ toString (g x))) ++
              "\n\x7d " ++ cte.c_type.base ++ ";\n")
          else
            only_c_code ("typedef enum QTCW_" ++ cte.c_type.base ++ " " ++ cte.c_type.base ++ ";\n")),
        visited ++ [cte.c_type.base]) := by
  cases hc : cur == owner <;>
    simp [generate_type_declaration, hv, hw, hb, ht, ho, hk, hr, hc,
      enum_values_entries_ok gen nm cte.c_type.base values g hg]

/-- Witness for C8 at the enum `Color` with enumerators `A = 0`, `B = 1`
owned by `color.h`: the full definition there, the forward form in
`other.h`. -/
theorem c8_witness :
    generate_type_declaration gen_color 1 color_cte "color.h" [] =
      Except.ok (only_c_code
        "typedef enum QTCW_Color \x7b\n  Color_A = 0, \n  Color_B = 1\n\x7d Color;\n",
        ["Color"]) ∧
    generate_type_declaration gen_color 1 color_cte "other.h" [] =
      Except.ok (only_c_code "typedef enum QTCW_Color Color;\n", ["Color"]) := by
  constructor
  · exact (c8_enum_full_iff_owning_header gen_color 0 color_cte "color.h" [] "Color"
      "color.h" _ [{ name := "A" }, { name := "B" }] color_values
      (by simp) (by decide) rfl rfl rfl rfl rfl (by decide)).trans rfl
  · exact (c8_enum_full_iff_owning_header gen_color 0 color_cte "other.h" [] "Color"
      "color.h" _ [{ name := "A" }, { name := "B" }] color_values
      (by simp) (by decide) rfl rfl rfl rfl rfl (by decide)).trans rfl

/-- Claim C9: a flags type is declared on the C side as `typedef unsigned
int <Name>;` (so the argument appears in the generated C signature as an
unsigned integer), and a flags-to-integer argument is reconstructed in the
body as `<FlagsType>(<argName>)` before being forwarded. -/
theorem c9_flags_unsigned_int_and_reconstruction :
    (∀ (gen : CGenerator) (fuel : Nat) (cte : CTypeExtended) (cur : String)
       (visited : List String) (nm f : String) (ti : CppTypeData),
      cte.c_type.base ∉ visited →
      cte.c_type.base ≠ "wchar_t" →
      cte.cpp_type.base = CppTypeBase.Unspecified nm →
      gen.types nm = some ti →
      ti.origin = CppTypeOrigin.Qt f →
      ti.kind = CppTypeKind.Flags →
      cte.conversion.renamed = false →
      generate_type_declaration gen (fuel + 1) cte cur visited =
        Except.ok ("typedef unsigned int " ++ cte.c_type.base ++ ";\n",
          visited ++ [cte.c_type.base])) ∧
    (∀ (cpp_argument : CppFunctionArgument) (c_argument : CFunctionArgument) (fname : String),
      c_argument.argument_type.conversion.qflags_to_uint = true →
      c_argument.argument_type.conversion.renamed = false →
      c_argument.argument_type.conversion.indirection_change = IndirectionChange.NoChange →
      cpp_argument.argument_type.base = CppTypeBase.Unspecified fname →
      CppAndCMethod.argument_value cpp_argument c_argument =
        Except.ok (fname ++ "(" ++ c_argument.name ++ ")")) := by
  constructor
  · intro gen fuel cte cur visited nm f ti hv hw hb ht ho hk hr
    simp [generate_type_declaration, hv, hw, hb, ht, ho, hk, hr]
  · intro cpp_argument c_argument fname hq hr hi hb
    simp [CppAndCMethod.argument_value, hq, hr, hi, hb]

/-- Witness for C9 at the flags type `Alignment` and a flags-typed argument
named `alignment`. -/
theorem c9_witness :
    generate_type_declaration gen_alignment 1 alignment_cte "other.h" [] =
      Except.ok ("typedef unsigned int Alignment;\n", ["Alignment"]) ∧
    CppAndCMethod.argument_value flags_cpp_arg flags_c_arg =
      Except.ok "Alignment(alignment)" := by
  constructor
  · exact (c9_flags_unsigned_int_and_reconstruction.1 gen_alignment 0 alignment_cte
      "other.h" [] "Alignment" "flags.h" _ (by simp) (by decide) rfl rfl rfl rfl rfl).trans rfl
  · exact (c9_flags_unsigned_int_and_reconstruction.2 flags_cpp_arg flags_c_arg
      "Alignment" rfl rfl rfl rfl).trans rfl

/-- Claim C10: a call to declaration emission on a type whose C base name is
`wchar_t` that is not yet in the visited set returns exactly the C-only
block containing `#include <wchar.h>` — regardless of the type's kind,
origin or conversion — and leaves the visited set unchanged, so `wchar_t` is
never recorded as declared and later references in the same unit re-emit the
include directive. -/
theorem c10_wchar_include_only (gen : CGenerator) (fuel : Nat)
    (cte : CTypeExtended) (cur : String) (visited : List String)
    (h1 : cte.c_type.base ∉ visited)
    (h2 : cte.c_type.base = "wchar_t") :
    generate_type_declaration gen (fuel + 1) cte cur visited =
      Except.ok (only_c_code "#include <wchar.h>\n", visited) := by
  rw [h2] at h1
  simp [generate_type_declaration, h1, h2]

/-- Witness for C10: a `wchar_t`-named type with an unsupported C++ base and
a renamed conversion still yields exactly the include block, with the
visited set unchanged. -/
theorem c10_witness :
    generate_type_declaration gen0 3 wchar_cte "qstring.h" [] =
      Except.ok (only_c_code "#include <wchar.h>\n", []) :=
  c10_wchar_include_only gen0 2 wchar_cte "qstring.h" [] (by simp) rfl
